import Mathlib

/-!
Verification of the ERP aggregation core: the schema registry, the atomic
bulk-ingestion ("populate") pipeline, the record store, and the producer-side
sync clients.  The Python sources (Django / DRF) are shallowly embedded:
request bodies are JSON values, the database is an explicit state record,
network calls are parameters describing the remote outcome, and the
storage-failure behaviour of a transaction is a failure oracle.
-/

namespace ERP

/-- JSON-ish values as they travel through DRF request bodies and `JSONField`
columns.  Python `float` and `Decimal` are kept as distinct constructors
(both carried exactly as rationals); Python `int` is `Int`. -/
inductive JValue where
  | null
  | bool (b : Bool)
  | int (n : Int)
  | float (q : ℚ)
  | dec (q : ℚ)
  | str (s : String)
  | arr (elems : List JValue)
  | obj (fields : List (String × JValue))

/-- Python `dict` key lookup in an association list (dict keys are unique, so
first match is the match). -/
def jGet (fields : List (String × JValue)) (k : String) : Option JValue :=
  (fields.find? (fun kv => kv.1 == k)).map (fun kv => kv.2)

/-- Lookup `d.get(k)` on an object; `none` on non-objects. -/
def JValue.get? : JValue → String → Option JValue
  | .obj fs, k => jGet fs k
  | _, _ => none

def JValue.isObj : JValue → Bool
  | .obj _ => true
  | _ => false

/-- Scalar (non-container) JSON/Python value. -/
def JValue.isPrimitive : JValue → Bool
  | .arr _ => false
  | .obj _ => false
  | _ => true

/-- Keys of an object, in order. -/
def JValue.keys : JValue → List String
  | .obj fs => fs.map (fun kv => kv.1)
  | _ => []

/-- Rows of `tables.models.TableSchema`.  The auto timestamps are not
inspected by any claim and are omitted; `id` is the primary key. -/
structure TableSchema where
  id : Nat
  name : String
  description : String
  fields_config : JValue
  is_active : Bool

/-- Rows of `tables.models.TableData`.  `source_id` keeps the raw value the
view passed (`entry.get("id", "")`); timestamps omitted as above. -/
structure TableData where
  id : Nat
  schema_id : Nat
  data : JValue
  source_service : String
  source_id : JValue

/-- Database of the core service plus its primary-key counters. -/
structure CoreState where
  schemas : List TableSchema
  records : List TableData
  nextSchemaId : Nat
  nextRecordId : Nat

/-- `TableSchemaViewSet.get_queryset` filters `is_active=True` (the `search`
parameter is irrelevant to detail routes). -/
def activeSchemas (st : CoreState) : List TableSchema :=
  st.schemas.filter (fun s => s.is_active)

/-- `self.get_object()` on `TableSchemaViewSet`: resolve `pk` inside
`get_queryset()`, i.e. among ACTIVE schemas only; `none` means 404. -/
def getSchemaObject (st : CoreState) (pk : Nat) : Option TableSchema :=
  (activeSchemas st).find? (fun s => s.id == pk)

def exOk {ε α : Type} : Except ε α → Bool
  | .ok _ => true
  | .error _ => false

/-- Whitespace stripping as the DRF option `trim_whitespace=True` applies it to
`CharField` input (Python `str.strip()`). -/
def pyStrip (s : String) : String :=
  ⟨((s.data.dropWhile Char.isWhitespace).reverse.dropWhile Char.isWhitespace).reverse⟩

/-- DRF `CharField(max_length=50)` on `PopulateTableSerializer.source_service`:
required, trimmed, non-blank, at most 50 characters.  (DRF would also coerce
numeric scalars through `str()`; no claim supplies one, and they are rejected
here.) -/
def validateSourceService (body : List (String × JValue)) : Except String String :=
  match jGet body "source_service" with
  | none => .error "Это поле обязательно."
  | some (.str s) =>
      let t := pyStrip s
      if t.isEmpty then .error "Это поле не может быть пустым."
      else if 50 < t.length then .error "Убедитесь, что это значение содержит не более 50 символов."
      else .ok t
  | some _ => .error "Not a valid string."

/-- Field `PopulateTableSerializer.data`: a `ListField(child=DictField())` followed by
`validate_data` — must be a list, every element an object, non-empty. -/
def validateDataField (body : List (String × JValue)) : Except String (List JValue) :=
  match jGet body "data" with
  | none => .error "Это поле обязательно."
  | some (.arr xs) =>
      if xs.all JValue.isObj then
        if xs.isEmpty then .error "data не может быть пустым"
        else .ok xs
      else .error "Каждый элемент data должен быть объектом"
  | some _ => .error "data должен быть массивом"

def errOf {α : Type} (field : String) : Except String α → List (String × String)
  | .error m => [(field, m)]
  | .ok _ => []

/-- Embedding of `PopulateTableSerializer.is_valid()`: both fields validated, errors
collected per field as DRF does. -/
def validatePopulate (body : List (String × JValue)) :
    Except (List (String × String)) (String × List JValue) :=
  match validateSourceService body, validateDataField body with
  | .ok s, .ok d => .ok (s, d)
  | e1, e2 => .error (errOf "source_service" e1 ++ errOf "data" e2)

/-- Responses of `TableSchemaViewSet.populate`. -/
inductive PopResponse where
  | notFound
  | validationError (errors : List (String × String))
  | created (message : String) (count : Nat) (records : List TableData)
  | internalError (error : String)

def PopResponse.status : PopResponse → Nat
  | .notFound => 404
  | .validationError _ => 400
  | .created _ _ _ => 201
  | .internalError _ => 500

/-- One `TableData.objects.create(...)` call inside the populate loop. -/
def createTableData (id schemaId : Nat) (entry : JValue) (src : String) : TableData :=
  { id := id
    schema_id := schemaId
    data := entry
    source_service := src
    source_id := (entry.get? "id").getD (.str "") }

/-- Sequence of creates the populate loop performs, ids drawn from the pk counter. -/
def createBatch (startId schemaId : Nat) (src : String) : List JValue → List TableData
  | [] => []
  | e :: es => createTableData startId schemaId e src :: createBatch (startId + 1) schemaId src es

/-- Embedding of `TableSchemaViewSet.populate`.  `storageFails i` says whether the `i`-th
`objects.create` of the batch raises a storage error; since the surrounding
`transaction.atomic()` rolls every insert back on any exception, only whether
SOME create in the batch fails is observable, and on failure the state is
returned untouched (rollback) with a 500 response. -/
def populate (st : CoreState) (pk : Nat) (body : List (String × JValue))
    (storageFails : Nat → Bool) : PopResponse × CoreState :=
  match getSchemaObject st pk with
  | none => (.notFound, st)
  | some schema =>
    match validatePopulate body with
    | .error errs => (.validationError errs, st)
    | .ok (src, dataList) =>
      if (List.range dataList.length).any storageFails then
        (.internalError "Ошибка при создании записей", st)
      else
        let newRecs := createBatch st.nextRecordId schema.id src dataList
        (.created ("Успешно создано " ++ toString newRecs.length ++ " записей")
            newRecs.length newRecs,
         { st with
             records := st.records ++ newRecs
             nextRecordId := st.nextRecordId + dataList.length })

/-- Responses of `TableSchemaViewSet.clear_data`. -/
inductive ClearResponse where
  | notFound
  | cleared (deleted_count : Nat) (schema_name : String)

/-- Embedding of `TableSchemaViewSet.clear_data`: resolve the schema (active only), count
its records, then delete exactly that filter. -/
def clear_data (st : CoreState) (pk : Nat) : ClearResponse × CoreState :=
  match getSchemaObject st pk with
  | none => (.notFound, st)
  | some schema =>
    let deleted_count := (st.records.filter (fun r => r.schema_id == schema.id)).length
    (.cleared deleted_count schema.name,
     { st with records := st.records.filter (fun r => r.schema_id != schema.id) })

/-- Embedding of `TableSchemaSerializer.validate_fields_config`: the value must be an
object with a list-valued `"fields"` key, every entry an object declaring both
`"name"` and `"type"`; the validated value is returned unchanged.  (The source
raises a distinct message per violation; only which inputs fail matters to the
claims, so the entry-level messages are collapsed into one.) -/
def validate_fields_config (value : JValue) : Except String JValue :=
  match value with
  | .obj fields =>
    match jGet fields "fields" with
    | some (.arr fieldDefs) =>
        if fieldDefs.all (fun f =>
            match f with
            | .obj kv => (jGet kv "name").isSome && (jGet kv "type").isSome
            | _ => false)
        then .ok value
        else .error "Каждое поле должно быть объектом и содержать name и type"
    | some _ => .error "'fields' должен быть массивом"
    | none => .error "Отсутствует ключ 'fields'"
  | _ => .error "fields_config должен быть объектом"

/-- Validation of the `name` field of `TableSchemaSerializer`: `CharField(max_length=100)` from the
model plus the `UniqueValidator` generated by `unique=True`, which checks ALL
`TableSchema` rows regardless of `is_active`. -/
def validateSchemaName (st : CoreState) (body : List (String × JValue)) : Except String String :=
  match jGet body "name" with
  | none => .error "Это поле обязательно."
  | some (.str s) =>
      let t := pyStrip s
      if t.isEmpty then .error "Это поле не может быть пустым."
      else if 100 < t.length then .error "Убедитесь, что это значение содержит не более 100 символов."
      else if st.schemas.any (fun sch => sch.name == t) then .error "схема таблицы с таким Название схемы уже существует."
      else .ok t
  | some _ => .error "Not a valid string."

/-- Field `description`: `TextField(blank=True)` → optional, blank allowed, default
empty. -/
def validateDescription (body : List (String × JValue)) : Except String String :=
  match jGet body "description" with
  | none => .ok ""
  | some (.str s) => .ok s
  | some _ => .error "Not a valid string."

/-- Field `is_active`: `BooleanField(default=True)` → optional.  (DRF also coerces
string spellings of booleans; no claim supplies one.) -/
def validateIsActive (body : List (String × JValue)) : Except String Bool :=
  match jGet body "is_active" with
  | none => .ok true
  | some (.bool b) => .ok b
  | some _ => .error "Must be a valid boolean."

/-- Field `fields_config`: a required `JSONField`, then the method
`validate_fields_config` of the serializer. -/
def validateFieldsConfig (body : List (String × JValue)) : Except String JValue :=
  match jGet body "fields_config" with
  | none => .error "Это поле обязательно."
  | some v => validate_fields_config v

inductive SchemaCreateResponse where
  | created (schema : TableSchema)
  | validationError (errors : List (String × String))

def SchemaCreateResponse.status : SchemaCreateResponse → Nat
  | .created _ => 201
  | .validationError _ => 400

/-- Inherited create action of `TableSchemaViewSet`: run the serializer; on success
save a new row, otherwise 400 with the per-field error map and no write. -/
def schemaCreate (st : CoreState) (body : List (String × JValue)) :
    SchemaCreateResponse × CoreState :=
  match validateSchemaName st body, validateDescription body,
        validateFieldsConfig body, validateIsActive body with
  | .ok n, .ok d, .ok fc, .ok ia =>
      let schema : TableSchema :=
        { id := st.nextSchemaId, name := n, description := d,
          fields_config := fc, is_active := ia }
      (.created schema,
       { st with schemas := st.schemas ++ [schema], nextSchemaId := st.nextSchemaId + 1 })
  | e1, e2, e3, e4 =>
      (.validationError (errOf "name" e1 ++ errOf "description" e2 ++
          errOf "fields_config" e3 ++ errOf "is_active" e4), st)

/-- Actions a DRF `ModelViewSet` registers on a router: the read pair plus the
four write actions. -/
def modelViewSetActions : List String :=
  ["list", "retrieve", "create", "update", "partial_update", "destroy"]

/-- Since `TableDataViewSet` subclasses `ModelViewSet` with no `http_method_names`
restriction and no mixin narrowing, so it exposes every action. -/
def tableDataViewSetActions : List String := modelViewSetActions

/-- Validation of the `schema` field on `TableDataSerializer`: the
auto-generated `PrimaryKeyRelatedField` of the model FK, whose queryset is
`TableSchema.objects.all()` — ALL rows, no `is_active` filter — and which
rejects a pk that does not resolve.  (DRF would also coerce a numeric string;
no claim supplies one.) -/
def validateRecordSchema (st : CoreState) (body : List (String × JValue)) :
    Except String Nat :=
  match jGet body "schema" with
  | none => .error "Это поле обязательно."
  | some (.int n) =>
      match st.schemas.find? (fun sch => ((sch.id : Int) == n)) with
      | some sch => .ok sch.id
      | none => .error "Недопустимый первичный ключ"
  | some _ => .error "Недопустимый первичный ключ"

/-- Validation of the `data` field on `TableDataSerializer`: a required
`JSONField`, any JSON value accepted. -/
def validateRecordData (body : List (String × JValue)) : Except String JValue :=
  match jGet body "data" with
  | none => .error "Это поле обязательно."
  | some v => .ok v

/-- Validation of the `source_id` field on `TableDataSerializer`:
`CharField(max_length=100, blank=True)` → optional and blank allowed; an
absent key leaves the stored value untouched (the ModelSerializer update only
assigns validated keys). -/
def validateSourceId (body : List (String × JValue)) : Except String (Option String) :=
  match jGet body "source_id" with
  | none => .ok none
  | some (.str s) =>
      let t := pyStrip s
      if 100 < t.length then .error "Убедитесь, что это значение содержит не более 100 символов."
      else .ok (some t)
  | some _ => .error "Not a valid string."

/-- Responses of the inherited update action on `TableDataViewSet`. -/
inductive RecordUpdateResponse where
  | notFound
  | validationError (errors : List (String × String))
  | updated (record : TableData)

def RecordUpdateResponse.status : RecordUpdateResponse → Nat
  | .notFound => 404
  | .validationError _ => 400
  | .updated _ => 200

/-- Update action that `TableDataViewSet` inherits from `ModelViewSet`:
resolve the record (404 when the pk is unknown), run `TableDataSerializer`
over the request body — writable fields `schema` (a pk that must resolve
among ALL `TableSchema` rows), `data`, `source_service`, `source_id`;
`schema_name` read-only, timestamps auto — and on success save the replaced
fields onto the addressed row; any field error is a 400 with no write. -/
def recordUpdate (st : CoreState) (recId : Nat) (body : List (String × JValue)) :
    RecordUpdateResponse × CoreState :=
  match st.records.find? (fun r => r.id == recId) with
  | none => (.notFound, st)
  | some r =>
    match validateRecordSchema st body, validateRecordData body,
          validateSourceService body, validateSourceId body with
    | .ok schemaId, .ok newData, .ok src, .ok sid =>
        let updated : TableData :=
          { r with
              schema_id := schemaId
              data := newData
              source_service := src
              source_id := match sid with | some s => JValue.str s | none => r.source_id }
        (.updated updated,
         { st with records := st.records.map (fun t => if t.id == recId then updated else t) })
    | e1, e2, e3, e4 =>
        (.validationError (errOf "schema" e1 ++ errOf "data" e2 ++
            errOf "source_service" e3 ++ errOf "source_id" e4), st)

def pad2 (n : Nat) : String :=
  if n < 10 then "0" ++ toString n else toString n

def pad4 (n : Nat) : String :=
  if n < 10 then "000" ++ toString n
  else if n < 100 then "00" ++ toString n
  else if n < 1000 then "0" ++ toString n
  else toString n

def pad6 (n : Nat) : String :=
  if n < 10 then "00000" ++ toString n
  else if n < 100 then "0000" ++ toString n
  else if n < 1000 then "000" ++ toString n
  else if n < 10000 then "00" ++ toString n
  else if n < 100000 then "0" ++ toString n
  else toString n

/-- Python `datetime.date`. -/
structure PyDate where
  year : Nat
  month : Nat
  day : Nat

/-- Python `date.isoformat()`: `YYYY-MM-DD`. -/
def PyDate.isoformat (d : PyDate) : String :=
  pad4 d.year ++ "-" ++ pad2 d.month ++ "-" ++ pad2 d.day

/-- Python `datetime.datetime` (naive; the Django auto timestamps). -/
structure PyDateTime where
  date : PyDate
  hour : Nat
  minute : Nat
  second : Nat
  microsecond : Nat

/-- Python `datetime.isoformat()`: `YYYY-MM-DDTHH:MM:SS[.ffffff]`. -/
def PyDateTime.isoformat (t : PyDateTime) : String :=
  t.date.isoformat ++ "T" ++ pad2 t.hour ++ ":" ++ pad2 t.minute ++ ":" ++ pad2 t.second ++
    (if t.microsecond == 0 then "" else "." ++ pad6 t.microsecond)

/-- Model `users.models.User` (producer-side domain entity).  `salary` is a nullable
`DecimalField`, carried exactly as a rational. -/
structure User where
  id : Nat
  username : String
  email : String
  first_name : String
  last_name : String
  department : String
  position : String
  salary : Option ℚ
  hire_date : PyDate
  is_active : Bool

def User.DEPARTMENT_CHOICES : List (String × String) :=
  [("IT", "IT отдел"), ("HR", "Отдел кадров"), ("MARKETING", "Маркетинг"),
   ("SALES", "Продажи"), ("FINANCE", "Финансы"), ("LEGAL", "Юридический отдел")]

def User.POSITION_CHOICES : List (String × String) :=
  [("JUNIOR_DEV", "Junior разработчик"), ("SENIOR_DEV", "Senior разработчик"),
   ("TEAM_LEAD", "Тимлид"), ("MANAGER", "Менеджер"), ("DIRECTOR", "Директор"),
   ("SPECIALIST", "Специалист"), ("ANALYST", "Аналитик")]

/-- Django `get_FOO_display()`: the label of the matching choice, or the raw
stored value when it is not among the choices. -/
def get_display (choices : List (String × String)) (code : String) : String :=
  ((choices.find? (fun c => c.1 == code)).map (fun c => c.2)).getD code

def User.full_name (u : User) : String :=
  u.first_name ++ " " ++ u.last_name

/-- Embedding of `User.to_table_data`.  Note the expression
`float(self.salary) if self.salary else None` in the source: Python
truthiness sends BOTH a null and a ZERO salary to `None`. -/
def User.to_table_data (u : User) : JValue :=
  .obj [
    ("id", .str (toString u.id)),
    ("full_name", .str u.full_name),
    ("username", .str u.username),
    ("email", .str u.email),
    ("department", .str (get_display User.DEPARTMENT_CHOICES u.department)),
    ("position", .str (get_display User.POSITION_CHOICES u.position)),
    ("salary", match u.salary with
               | some q => if q = 0 then JValue.null else JValue.float q
               | none => JValue.null),
    ("hire_date", .str u.hire_date.isoformat),
    ("is_active", .bool u.is_active)
  ]

/-- Model `products.models.Category`; `get_full_path` recurses through `parent`. -/
inductive Category where
  | mk (name : String) (parent : Option Category)

def Category.name : Category → String
  | .mk n _ => n

def Category.get_full_path : Category → String
  | .mk n none => n
  | .mk n (some p) => p.get_full_path ++ " > " ++ n

structure Supplier where
  name : String

/-- A Python number as `round(...)` sees it: `Decimal` or `int`. -/
inductive PyNumber where
  | decimal (q : ℚ)
  | int (n : Int)

/-- Model `products.models.Product`. -/
structure Product where
  id : Nat
  name : String
  sku : String
  barcode : Option String
  description : String
  category : Category
  supplier : Option Supplier
  cost_price : ℚ
  selling_price : ℚ
  discount_price : Option ℚ
  stock_quantity : Int
  min_stock_level : Int
  weight : Option ℚ
  dimensions : String
  status : String
  is_featured : Bool
  created_at : PyDateTime

def Product.STATUS_CHOICES : List (String × String) :=
  [("ACTIVE", "Активен"), ("INACTIVE", "Неактивен"),
   ("DISCONTINUED", "Снят с производства"), ("OUT_OF_STOCK", "Нет в наличии")]

/-- Property `Product.profit_margin`: a `Decimal` when both prices are truthy
(non-zero), otherwise the `int` 0. -/
def Product.profit_margin (p : Product) : PyNumber :=
  if p.cost_price ≠ 0 ∧ p.selling_price ≠ 0 then
    .decimal ((p.selling_price - p.cost_price) / p.selling_price * 100)
  else .int 0

/-- Property `Product.current_price`: `discount_price if discount_price else
selling_price` — a zero discount is falsy and falls back to the selling
price. -/
def Product.current_price (p : Product) : ℚ :=
  match p.discount_price with
  | some q => if q = 0 then p.selling_price else q
  | none => p.selling_price

def Product.is_low_stock (p : Product) : Bool :=
  p.stock_quantity ≤ p.min_stock_level

def Product.stock_status (p : Product) : String :=
  if p.stock_quantity == 0 then "Нет в наличии"
  else if p.is_low_stock then "Заканчивается"
  else "В наличии"

/-- Round half-to-even to an integer (the Python rounding mode for `Decimal`). -/
def roundHalfEven (x : ℚ) : Int :=
  let f := ⌊x⌋
  let r := x - (f : ℚ)
  if r < 1/2 then f
  else if 1/2 < r then f + 1
  else if f % 2 = 0 then f else f + 1

/-- Python `round(_, 2)` on a `Decimal`. -/
def decRound2 (q : ℚ) : ℚ :=
  (roundHalfEven (q * 100) : ℚ) / 100

/-- Python `round(x, 2)`: quantises a `Decimal`, leaves an `int` unchanged. -/
def pyRound2 : PyNumber → PyNumber
  | .decimal q => .decimal (decRound2 q)
  | .int n => .int n

def PyNumber.toJValue : PyNumber → JValue
  | .decimal q => .dec q
  | .int n => .int n

/-- Embedding of `Product.to_table_data`.  `barcode or ""` and the weight and
`current_price`
truthiness tests are carried over verbatim. -/
def Product.to_table_data (p : Product) : JValue :=
  .obj [
    ("id", .str (toString p.id)),
    ("name", .str p.name),
    ("sku", .str p.sku),
    ("barcode", .str (p.barcode.getD "")),
    ("category", .str p.category.get_full_path),
    ("supplier", .str (match p.supplier with | some s => s.name | none => "")),
    ("cost_price", .float p.cost_price),
    ("selling_price", .float p.selling_price),
    ("current_price", .float p.current_price),
    ("profit_margin", (pyRound2 p.profit_margin).toJValue),
    ("stock_quantity", .int p.stock_quantity),
    ("stock_status", .str p.stock_status),
    ("min_stock_level", .int p.min_stock_level),
    ("weight", match p.weight with
               | some q => if q = 0 then JValue.null else JValue.float q
               | none => JValue.null),
    ("dimensions", .str p.dimensions),
    ("status", .str (get_display Product.STATUS_CHOICES p.status)),
    ("is_featured", .bool p.is_featured),
    ("created_at", .str p.created_at.isoformat)
  ]

/-- The outcome of one `requests.post` to the core service: either the remote
responded (with a status code and a body text), or the request raised
(`ConnectionError`, `Timeout`, ... — all `RequestException`s). -/
inductive HttpOutcome where
  | resp (statusCode : Nat) (text : String)
  | exn (msg : String)

/-- Embedding of `User.sync_to_core_service`: posts `{"source_service": "user_service",
"data": [self.to_table_data()]}` with a 5s timeout and reduces the outcome to
a boolean — `True` iff the remote answered 201; every exception is caught and
yields `False`.  `net` is the outcome of that one post. -/
def User.sync_to_core_service (u : User) (net : HttpOutcome) : Bool :=
  let _data := u.to_table_data
  match net with
  | .resp s _ => s == 201
  | .exn _ => false

/-- Responses of `UserViewSet.sync_to_core` (bulk push). -/
inductive SyncCoreResponse where
  | badRequest (errors : List (String × String))
  | noUsers
  | synced (message : String) (count : Nat) (schema_id : Nat)
  | coreError (error : String) (details : String)
  | coreUnavailable (error : String)

def SyncCoreResponse.status : SyncCoreResponse → Nat
  | .badRequest _ => 400
  | .noUsers => 404
  | .synced _ _ _ => 200
  | .coreError _ _ => 502
  | .coreUnavailable _ => 503

/-- The queryset `sync_to_core` builds: `if user_ids:` is Python truthiness,
so BOTH a missing and an EMPTY `user_ids` select all active users. -/
def selectSyncUsers (allUsers : List User) (user_ids : Option (List Nat)) : List User :=
  match user_ids with
  | some ids =>
      if ids.isEmpty then allUsers.filter (fun u => u.is_active)
      else allUsers.filter (fun u => ids.contains u.id && u.is_active)
  | none => allUsers.filter (fun u => u.is_active)

/-- Embedding of `UserViewSet.sync_to_core` after serializer validation (`schema_id`
defaults to 1 there): select users, 404 when none, then one 10s-timeout post
whose outcome `net` is classified — 201 → 200 with the count, any other
status → 502 carrying status and body, `RequestException` → 503. -/
def sync_to_core (allUsers : List User) (schema_id : Nat) (user_ids : Option (List Nat))
    (net : HttpOutcome) : SyncCoreResponse :=
  let users := selectSyncUsers allUsers user_ids
  if users.isEmpty then .noUsers
  else
    let data_list := users.map User.to_table_data
    match net with
    | .resp s text =>
        if s == 201 then
          .synced ("Синхронизировано " ++ toString data_list.length ++ " пользователей")
            data_list.length schema_id
        else .coreError ("Ошибка Core Service: " ++ toString s) text
    | .exn m => .coreUnavailable ("Не удалось подключиться к Core Service: " ++ m)

/-- Responses of `UserViewSet.sync_single`. -/
inductive SyncSingleResponse where
  | okMsg (message : String)
  | errMsg (error : String)

def SyncSingleResponse.status : SyncSingleResponse → Nat
  | .okMsg _ => 200
  | .errMsg _ => 502

/-- Embedding of `UserViewSet.sync_single`: delegates to the boolean
`sync_to_core_service` and maps `False` — whatever its cause — to one generic
502 error. -/
def sync_single (u : User) (net : HttpOutcome) : SyncSingleResponse :=
  if u.sync_to_core_service net then
    .okMsg ("Пользователь " ++ u.full_name ++ " синхронизирован")
  else .errMsg "Ошибка синхронизации"

/-! Helper lemmas shared by several claims. -/

theorem getSchemaObject_spec {st : CoreState} {pk : Nat} {sch : TableSchema}
    (h : getSchemaObject st pk = some sch) :
    sch.id = pk ∧ sch.is_active = true ∧ sch ∈ st.schemas := by
  unfold getSchemaObject activeSchemas at h
  have h1 := List.find?_some h
  have h2 := List.mem_of_find?_eq_some h
  rw [List.mem_filter] at h2
  exact ⟨by simpa using h1, h2.2, h2.1⟩

theorem length_filter_partition {α : Type} (p : α → Bool) :
    ∀ l : List α, l.length = (l.filter p).length + (l.filter (fun a => !p a)).length
  | [] => rfl
  | a :: l => by
      cases h : p a <;>
        simp [List.filter_cons, h, length_filter_partition p l] <;> omega

theorem jGet_mem {fs : List (String × JValue)} {k : String} {v : JValue}
    (h : jGet fs k = some v) : ∃ kv ∈ fs, kv.2 = v := by
  unfold jGet at h
  cases hf : fs.find? (fun kv => kv.1 == k) with
  | none => rw [hf] at h; cases h
  | some kv =>
      rw [hf] at h
      exact ⟨kv, List.mem_of_find?_eq_some hf, by injection h⟩

/-! C4 — schema resolution of populate. -/

/-- A soft-deleted (deactivated) schema, still present in the registry. -/
def schemaSoftDeleted : TableSchema :=
  { id := 1
    name := "employees"
    description := ""
    fields_config := .obj [("fields", .arr [.obj [("name", .str "full_name"), ("type", .str "string")]])]
    is_active := false }

def stSoftDeleted : CoreState :=
  { schemas := [schemaSoftDeleted]
    records := []
    nextSchemaId := 2
    nextRecordId := 1 }

/-- A perfectly well-formed populate body. -/
def bodyGood : List (String × JValue) :=
  [("source_service", .str "user_service"),
   ("data", .arr [.obj [("id", .str "1"), ("full_name", .str "A B"), ("email", .str "a@b.com")]])]

/-- C4 counterexample: the schema with id 1 exists in the registry (it was
merely soft-deleted, `is_active = false`), yet populate answers 404 NotFound,
because `get_object` resolves the pk inside the `is_active=True` queryset.
The claim said a soft-deleted schema remains addressable by populate. -/
theorem C4_counterexample :
    stSoftDeleted.schemas = [schemaSoftDeleted] ∧
    schemaSoftDeleted.id = 1 ∧
    schemaSoftDeleted.is_active = false ∧
    (populate stSoftDeleted 1 bodyGood (fun _ => false)).1 = PopResponse.notFound ∧
    (populate stSoftDeleted 1 bodyGood (fun _ => false)).1.status = 404 :=
  ⟨rfl, rfl, rfl, rfl, rfl⟩

/-- C4 (amended): populate fails with 404 NotFound if and only if the target
schema id does not resolve to an existing ACTIVE schema; a soft-deleted schema
is not addressable by populate and yields 404. -/
theorem C4_populate_not_found_iff (st : CoreState) (pk : Nat)
    (body : List (String × JValue)) (f : Nat → Bool) :
    (populate st pk body f).1 = PopResponse.notFound ↔ getSchemaObject st pk = none := by
  unfold populate
  cases h : getSchemaObject st pk with
  | none => simp
  | some sch =>
      simp only [Option.some.injEq, reduceCtorEq, iff_false]
      cases hv : validatePopulate body with
      | error errs => simp
      | ok pr =>
          obtain ⟨src, dataList⟩ := pr
          by_cases hf : (List.range dataList.length).any f = true
          · simp [hf]
          · simp [hf]

/-! C6 — the exposed interface of the Record resource. -/

def recordOld : TableData :=
  { id := 1
    schema_id := 1
    data := .str "old payload"
    source_service := "user_service"
    source_id := .str "1" }

def stOneRecord : CoreState :=
  { schemas := [schemaSoftDeleted]
    records := [recordOld]
    nextSchemaId := 2
    nextRecordId := 2 }

/-- Body of a PUT on record 1 that the serializer accepts: the schema pk 1
resolves (the schema exists — soft-deleted, but the pk field checks ALL
rows), every required field present and well-formed. -/
def bodyRecordUpdate : List (String × JValue) :=
  [("schema", .int 1), ("data", .str "new payload"),
   ("source_service", .str "user_service"), ("source_id", .str "1")]

/-- Same body with a schema pk that resolves to no row. -/
def bodyRecordUpdateBadSchema : List (String × JValue) :=
  [("schema", .int 2), ("data", .str "new payload"),
   ("source_service", .str "user_service"), ("source_id", .str "1")]

/-- C6 counterexample: `TableDataViewSet` subclasses `ModelViewSet`, so the
public interface of the Record resource is NOT read/list only — it routes
`update` (and `partial_update`, `create`, `destroy`), and a PUT that passes
the serializer validation (schema pk resolving, required fields present)
answers 200 and does change the payload of the existing record. -/
theorem C6_counterexample :
    ("update" ∈ tableDataViewSetActions ∧ "destroy" ∈ tableDataViewSetActions) ∧
    ¬ (∀ a ∈ tableDataViewSetActions, a = "list" ∨ a = "retrieve") ∧
    stOneRecord.records.map TableData.data = [JValue.str "old payload"] ∧
    ((recordUpdate stOneRecord 1 bodyRecordUpdate).1).status = 200 ∧
    (recordUpdate stOneRecord 1 bodyRecordUpdate).2.records.map TableData.data =
      [JValue.str "new payload"] ∧
    JValue.str "new payload" ≠ JValue.str "old payload" := by
  refine ⟨⟨by decide, by decide⟩, by decide, rfl, rfl, rfl, ?_⟩
  intro h
  injection h with h
  exact absurd h (by decide)

/-- C6 (amended): the Record resource is exposed through an unrestricted
`ModelViewSet`, i.e. full CRUD — list and retrieve plus create, update,
partial_update and destroy; the update action, after the serializer
validation passes (the schema pk must resolve among all schema rows, the
required fields must be present and well-formed), rewrites the payload,
schema reference, source_service and source_id of the addressed record, so
records are not immutable through the public interface; the same PUT naming
a schema pk that resolves to no row is rejected with 400 and writes
nothing. -/
theorem C6_record_resource_full_crud :
    tableDataViewSetActions = ["list", "retrieve", "create", "update", "partial_update", "destroy"] ∧
    recordUpdate stOneRecord 1 bodyRecordUpdate =
      (RecordUpdateResponse.updated
        { id := 1, schema_id := 1, data := .str "new payload",
          source_service := "user_service", source_id := .str "1" },
       { stOneRecord with
           records := [{ id := 1, schema_id := 1, data := .str "new payload",
                         source_service := "user_service", source_id := .str "1" }] }) ∧
    recordUpdate stOneRecord 1 bodyRecordUpdateBadSchema =
      (RecordUpdateResponse.validationError [("schema", "Недопустимый первичный ключ")],
       stOneRecord) ∧
    (RecordUpdateResponse.validationError [("schema", "Недопустимый первичный ключ")]).status
      = 400 :=
  ⟨rfl, rfl, rfl, rfl⟩

/-! C10 — clear is scoped to the target schema. -/

/-- C10: clearing one schema leaves every record of any other schema in place
(the records whose schema differs from the target are exactly preserved, in
order and multiplicity), and deletes only — never adds or rewrites — records
(the resulting store is a sublist of the original). -/
theorem C10_clear_frame (st : CoreState) (pk : Nat) :
    ((clear_data st pk).2.records.filter (fun r => r.schema_id != pk) =
      st.records.filter (fun r => r.schema_id != pk)) ∧
    (clear_data st pk).2.records.Sublist st.records := by
  unfold clear_data
  cases h : getSchemaObject st pk with
  | none => exact ⟨rfl, List.Sublist.refl _⟩
  | some sch =>
      obtain ⟨hid, -, -⟩ := getSchemaObject_spec h
      subst hid
      constructor
      · rw [List.filter_filter]
        congr 1
        funext r
        cases hr : (r.schema_id == sch.id) <;> simp [bne, hr]
      · exact List.filter_sublist _

/-! C7 — clear deletes exactly the K records of the schema and reports K. -/

/-- C7: for a resolvable schema holding K records, `clear_data` answers with
the count K and the schema name, afterwards a query for the records of that
schema is empty, and exactly K records disappeared from the store. -/
theorem C7_clear_count (st : CoreState) (pk : Nat) (sch : TableSchema)
    (hs : getSchemaObject st pk = some sch) :
    (clear_data st pk).1 =
      ClearResponse.cleared ((st.records.filter (fun r => r.schema_id == pk)).length) sch.name ∧
    (clear_data st pk).2.records.filter (fun r => r.schema_id == pk) = [] ∧
    st.records.length =
      ((st.records.filter (fun r => r.schema_id == pk)).length) +
        (clear_data st pk).2.records.length := by
  obtain ⟨hid, -, -⟩ := getSchemaObject_spec hs
  subst hid
  unfold clear_data
  rw [hs]
  refine ⟨rfl, ?_, ?_⟩
  · rw [List.filter_filter]
    apply List.filter_eq_nil_iff.mpr
    intro r _
    cases hr : (r.schema_id == sch.id) <;> simp [bne, hr]
  · have := length_filter_partition (fun r : TableData => r.schema_id == sch.id) st.records
    simpa [bne] using this

def recordOther : TableData :=
  { id := 2
    schema_id := 5
    data := .str "other schema payload"
    source_service := "product_service"
    source_id := .str "2" }

def schemaActive : TableSchema :=
  { id := 1
    name := "employees"
    description := ""
    fields_config := .obj [("fields", .arr [.obj [("name", .str "full_name"), ("type", .str "string")]])]
    is_active := true }

def stTwoSchemas : CoreState :=
  { schemas := [schemaActive]
    records := [recordOld, recordOther]
    nextSchemaId := 2
    nextRecordId := 3 }

theorem C7_clear_count_witness :
    (clear_data stTwoSchemas 1).1 = ClearResponse.cleared 1 "employees" ∧
    (clear_data stTwoSchemas 1).2.records.filter (fun r => r.schema_id == 1) = [] ∧
    stTwoSchemas.records.length = 1 + (clear_data stTwoSchemas 1).2.records.length :=
  C7_clear_count stTwoSchemas 1 schemaActive rfl

/-! C1 — atomicity of the populate batch commit. -/

/-- C1: on an existing schema, when persisting any single record of a
validated batch fails, populate answers 500 InternalError and the whole state
— in particular the Record Store — is exactly what it was before the call
(the transaction rolled back; no partial batch is visible). -/
theorem C1_populate_atomic (st : CoreState) (pk : Nat) (body : List (String × JValue))
    (f : Nat → Bool) (sch : TableSchema) (src : String) (dataList : List JValue)
    (hs : getSchemaObject st pk = some sch)
    (hv : validatePopulate body = .ok (src, dataList))
    (hf : ∃ i, i < dataList.length ∧ f i = true) :
    populate st pk body f = (PopResponse.internalError "Ошибка при создании записей", st) ∧
    (populate st pk body f).1.status = 500 := by
  have hany : (List.range dataList.length).any f = true := by
    rw [List.any_eq_true]
    obtain ⟨i, hi, hfi⟩ := hf
    exact ⟨i, List.mem_range.mpr hi, hfi⟩
  unfold populate
  simp [hs, hv, hany, PopResponse.status]

def stActive : CoreState :=
  { schemas := [schemaActive]
    records := [recordOther]
    nextSchemaId := 2
    nextRecordId := 3 }

theorem C1_populate_atomic_witness :
    populate stActive 1 bodyGood (fun _ => true) =
      (PopResponse.internalError "Ошибка при создании записей", stActive) ∧
    (populate stActive 1 bodyGood (fun _ => true)).1.status = 500 :=
  C1_populate_atomic stActive 1 bodyGood (fun _ => true) schemaActive "user_service"
    [.obj [("id", .str "1"), ("full_name", .str "A B"), ("email", .str "a@b.com")]]
    rfl rfl ⟨0, by decide, rfl⟩

/-! C2 — structural validation fails fast with 400 and writes nothing. -/

/-- The malformed-request conditions named by the claim: `data` not a list,
`data` empty, some element of `data` not an object, `source_service` missing,
or `source_service` longer than the bounded length (50 after trimming). -/
def badPopulateRequest (body : List (String × JValue)) : Prop :=
  (∃ v, jGet body "data" = some v ∧ ∀ xs, v ≠ JValue.arr xs) ∨
  jGet body "data" = some (JValue.arr []) ∨
  (∃ xs x, jGet body "data" = some (JValue.arr xs) ∧ x ∈ xs ∧ x.isObj = false) ∨
  jGet body "source_service" = none ∨
  (∃ s, jGet body "source_service" = some (JValue.str s) ∧ 50 < (pyStrip s).length)

theorem validateDataField_error_of_bad (body : List (String × JValue))
    (h : (∃ v, jGet body "data" = some v ∧ ∀ xs, v ≠ JValue.arr xs) ∨
         jGet body "data" = some (JValue.arr []) ∨
         (∃ xs x, jGet body "data" = some (JValue.arr xs) ∧ x ∈ xs ∧ x.isObj = false)) :
    ∃ m, validateDataField body = .error m := by
  unfold validateDataField
  rcases h with ⟨v, hv, hne⟩ | hv | ⟨xs, x, hv, hx, hobj⟩
  · rw [hv]
    cases v
    case arr xs => exact absurd rfl (hne xs)
    all_goals exact ⟨_, rfl⟩
  · rw [hv]
    exact ⟨_, rfl⟩
  · have hall : xs.all JValue.isObj = false := by
      rw [List.all_eq_false]
      exact ⟨x, hx, by simp [hobj]⟩
    simp only [hv, hall]
    exact ⟨_, rfl⟩

theorem validateSourceService_error_of_bad (body : List (String × JValue))
    (h : jGet body "source_service" = none ∨
         (∃ s, jGet body "source_service" = some (JValue.str s) ∧ 50 < (pyStrip s).length)) :
    ∃ m, validateSourceService body = .error m := by
  unfold validateSourceService
  rcases h with hv | ⟨s, hv, hlen⟩
  · rw [hv]
    exact ⟨_, rfl⟩
  · have hne : pyStrip s ≠ "" := by
      intro h0
      rw [h0] at hlen
      simp at hlen
    have h0 : ¬ ((pyStrip s).isEmpty = true) := by
      rw [String.isEmpty_iff]
      exact hne
    simp only [hv]
    rw [if_neg h0, if_pos hlen]
    exact ⟨_, rfl⟩

theorem validatePopulate_error_of_bad (body : List (String × JValue))
    (h : badPopulateRequest body) :
    ∃ errs, validatePopulate body = .error errs ∧ errs ≠ [] := by
  have main : (∃ m, validateDataField body = .error m) ∨
      (∃ m, validateSourceService body = .error m) := by
    rcases h with h | h | h | h | h
    · exact Or.inl (validateDataField_error_of_bad body (Or.inl h))
    · exact Or.inl (validateDataField_error_of_bad body (Or.inr (Or.inl h)))
    · exact Or.inl (validateDataField_error_of_bad body (Or.inr (Or.inr h)))
    · exact Or.inr (validateSourceService_error_of_bad body (Or.inl h))
    · exact Or.inr (validateSourceService_error_of_bad body (Or.inr h))
  unfold validatePopulate
  rcases main with ⟨m, hm⟩ | ⟨m, hm⟩
  · cases hss : validateSourceService body <;>
      · simp only [hss, hm]
        exact ⟨_, rfl, by simp [errOf]⟩
  · cases hd : validateDataField body <;>
      · simp only [hm, hd]
        exact ⟨_, rfl, by simp [errOf]⟩

/-- C2: on an existing schema, any of the malformed-request conditions makes
populate answer 400 with a non-empty per-field error map, and the state —
for EVERY storage-failure oracle, since no transaction is even opened — is
exactly the state before the call: zero records are written. -/
theorem C2_populate_validation (st : CoreState) (pk : Nat) (body : List (String × JValue))
    (f : Nat → Bool) (sch : TableSchema)
    (hs : getSchemaObject st pk = some sch)
    (hbad : badPopulateRequest body) :
    ∃ errs, errs ≠ [] ∧
      populate st pk body f = (PopResponse.validationError errs, st) ∧
      (PopResponse.validationError errs).status = 400 := by
  obtain ⟨errs, he, hne⟩ := validatePopulate_error_of_bad body hbad
  refine ⟨errs, hne, ?_, rfl⟩
  unfold populate
  simp [hs, he]

/-- Empty `data` with a valid `source_service`. -/
def bodyEmptyData : List (String × JValue) :=
  [("source_service", .str "user_service"), ("data", .arr [])]

theorem C2_populate_validation_witness :
    ∃ errs, errs ≠ [] ∧
      populate stActive 1 bodyEmptyData (fun _ => true) =
        (PopResponse.validationError errs, stActive) ∧
      (PopResponse.validationError errs).status = 400 :=
  C2_populate_validation stActive 1 bodyEmptyData (fun _ => true) schemaActive rfl
    (Or.inr (Or.inl rfl))

/-! C3 — a well-formed batch of N objects creates exactly N records. -/

theorem createBatch_spec (schemaId : Nat) (src : String) :
    ∀ (es : List JValue) (startId : Nat),
      (createBatch startId schemaId src es).length = es.length ∧
      List.Forall₂ (fun (e : JValue) (r : TableData) =>
          r.schema_id = schemaId ∧ r.data = e ∧ r.source_service = src ∧
          r.source_id = (e.get? "id").getD (.str "")) es (createBatch startId schemaId src es)
  | [], _ => ⟨rfl, List.Forall₂.nil⟩
  | e :: es, startId => by
      obtain ⟨h1, h2⟩ := createBatch_spec schemaId src es (startId + 1)
      refine ⟨?_, List.Forall₂.cons ⟨rfl, rfl, rfl, rfl⟩ h2⟩
      simpa [createBatch] using h1

/-- C3: on an existing schema, a valid populate request whose `data` holds N
objects — with no storage failure — answers 201 whose reported count is N,
returns N created records appended to the store, and pairs the records with
the submitted elements in order: each record references the target schema,
stores the element verbatim as its payload, and takes `source_id` from the
element's "id" key when present and the empty string otherwise. -/
theorem C3_populate_success (st : CoreState) (pk : Nat) (body : List (String × JValue))
    (f : Nat → Bool) (sch : TableSchema) (src : String) (dataList : List JValue)
    (hs : getSchemaObject st pk = some sch)
    (hv : validatePopulate body = .ok (src, dataList))
    (hf : ∀ i, i < dataList.length → f i = false) :
    ∃ recs msg,
      populate st pk body f =
        (PopResponse.created msg dataList.length recs,
         { st with
             records := st.records ++ recs
             nextRecordId := st.nextRecordId + dataList.length }) ∧
      (PopResponse.created msg dataList.length recs).status = 201 ∧
      recs.length = dataList.length ∧
      List.Forall₂ (fun (e : JValue) (r : TableData) =>
          r.schema_id = pk ∧ r.data = e ∧ r.source_service = src ∧
          (∀ v, e.get? "id" = some v → r.source_id = v) ∧
          (e.get? "id" = none → r.source_id = JValue.str "")) dataList recs := by
  obtain ⟨hid, -, -⟩ := getSchemaObject_spec hs
  have hany : (List.range dataList.length).any f = false := by
    rw [List.any_eq_false]
    intro i hi
    simp [hf i (List.mem_range.mp hi)]
  obtain ⟨hlen, hpairs⟩ := createBatch_spec sch.id src dataList st.nextRecordId
  refine ⟨createBatch st.nextRecordId sch.id src dataList,
      "Успешно создано " ++ toString dataList.length ++ " записей", ?_, rfl, hlen, ?_⟩
  · unfold populate
    simp only [hs, hv, hany, Bool.false_eq_true, if_false]
    rw [hlen]
  · refine hpairs.imp ?_
    intro e r hr
    obtain ⟨h1, h2, h3, h4⟩ := hr
    refine ⟨hid ▸ h1, h2, h3, ?_, ?_⟩
    · intro v hv'
      rw [h4, hv']
      rfl
    · intro hv'
      rw [h4, hv']
      rfl

theorem C3_populate_success_witness :
    ∃ recs msg,
      populate stActive 1 bodyGood (fun _ => false) =
        (PopResponse.created msg 1 recs,
         { stActive with
             records := stActive.records ++ recs
             nextRecordId := stActive.nextRecordId + 1 }) ∧
      (PopResponse.created msg 1 recs).status = 201 ∧
      recs.length = 1 ∧
      List.Forall₂ (fun (e : JValue) (r : TableData) =>
          r.schema_id = 1 ∧ r.data = e ∧ r.source_service = "user_service" ∧
          (∀ v, e.get? "id" = some v → r.source_id = v) ∧
          (e.get? "id" = none → r.source_id = JValue.str ""))
        [.obj [("id", .str "1"), ("full_name", .str "A B"), ("email", .str "a@b.com")]] recs :=
  C3_populate_success stActive 1 bodyGood (fun _ => false) schemaActive "user_service"
    [.obj [("id", .str "1"), ("full_name", .str "A B"), ("email", .str "a@b.com")]]
    rfl rfl (fun _ _ => rfl)

/-! C5 — schema creation succeeds exactly for well-shaped definitions. -/

theorem validate_fields_config_ok {v w : JValue}
    (h : validate_fields_config v = .ok w) : w = v := by
  unfold validate_fields_config at h
  split at h <;> try cases h
  split at h <;> try cases h
  split at h <;> try cases h
  rfl

/-- C5: for a creation request whose `name` is a string that passes the
character-level checks (non-blank, at most 100 characters after trimming) and
whose other fields are individually acceptable, creation succeeds — appending
exactly one schema that round-trips `fields_config` unchanged — IF AND ONLY IF
`fields_config` is an object with a list-valued "fields" key whose every entry
is an object declaring both "name" and "type", and the name collides with no
existing schema; on any violation the response is a 400 ValidationError with
a non-empty error map and the state is unchanged (nothing persisted). -/
theorem C5_schema_create (st : CoreState) (body : List (String × JValue))
    (s : String) (fc : JValue) (d : String) (ia : Bool)
    (hname : jGet body "name" = some (JValue.str s))
    (hblank : pyStrip s ≠ "")
    (hlen : (pyStrip s).length ≤ 100)
    (hdesc : validateDescription body = .ok d)
    (hia : validateIsActive body = .ok ia)
    (hfc : jGet body "fields_config" = some fc) :
    ((exOk (validate_fields_config fc) = true ∧ ∀ sch ∈ st.schemas, sch.name ≠ pyStrip s) →
      ∃ newSchema,
        schemaCreate st body =
          (SchemaCreateResponse.created newSchema,
           { st with
               schemas := st.schemas ++ [newSchema]
               nextSchemaId := st.nextSchemaId + 1 }) ∧
        newSchema.fields_config = fc ∧ newSchema.name = pyStrip s) ∧
    ((exOk (validate_fields_config fc) = false ∨ ∃ sch ∈ st.schemas, sch.name = pyStrip s) →
      ∃ errs, errs ≠ [] ∧
        schemaCreate st body = (SchemaCreateResponse.validationError errs, st)) := by
  have hempty : ¬ ((pyStrip s).isEmpty = true) := by
    rw [String.isEmpty_iff]
    exact hblank
  have hlen' : ¬ (100 < (pyStrip s).length) := Nat.not_lt.mpr hlen
  constructor
  · rintro ⟨hok, hnocoll⟩
    have hfc' : validate_fields_config fc = .ok fc := by
      cases hv : validate_fields_config fc with
      | error m => rw [hv] at hok; cases hok
      | ok w => rw [validate_fields_config_ok hv]
    have hcoll : st.schemas.any (fun sch => sch.name == pyStrip s) = false := by
      rw [List.any_eq_false]
      intro sch hsch
      simp [hnocoll sch hsch]
    have hnameval : validateSchemaName st body = .ok (pyStrip s) := by
      unfold validateSchemaName
      rw [hname]
      simp only
      rw [if_neg hempty, if_neg hlen', hcoll]
      rfl
    have hfcval : validateFieldsConfig body = .ok fc := by
      unfold validateFieldsConfig
      rw [hfc]
      exact hfc'
    refine ⟨{ id := st.nextSchemaId, name := pyStrip s, description := d,
              fields_config := fc, is_active := ia }, ?_, rfl, rfl⟩
    unfold schemaCreate
    simp only [hnameval, hdesc, hfcval, hia]
  · intro hviol
    unfold schemaCreate
    rcases hviol with hbad | ⟨sch, hsch, hcoll⟩
    · have hfcu : validateFieldsConfig body = validate_fields_config fc := by
        unfold validateFieldsConfig
        rw [hfc]
      have hfcval : ∃ m, validateFieldsConfig body = .error m := by
        rw [hfcu]
        cases hv : validate_fields_config fc with
        | error m => exact ⟨m, rfl⟩
        | ok w => rw [hv] at hbad; simp [exOk] at hbad
      obtain ⟨m, hm⟩ := hfcval
      cases hn : validateSchemaName st body <;>
        · simp only [hn, hdesc, hm, hia]
          exact ⟨_, by simp [errOf], rfl⟩
    · have hany : st.schemas.any (fun t => t.name == pyStrip s) = true := by
        rw [List.any_eq_true]
        exact ⟨sch, hsch, by simp [hcoll]⟩
      have hnameval : ∃ m, validateSchemaName st body = .error m := by
        unfold validateSchemaName
        rw [hname]
        simp only
        rw [if_neg hempty, if_neg hlen', hany]
        exact ⟨_, rfl⟩
      obtain ⟨m, hm⟩ := hnameval
      cases hfcv : validateFieldsConfig body <;>
        · simp only [hm, hdesc, hfcv, hia]
          exact ⟨_, by simp [errOf], rfl⟩

def bodySchemaGood : List (String × JValue) :=
  [("name", .str "products"),
   ("description", .str "Product catalogue"),
   ("fields_config", .obj [("fields", .arr
      [.obj [("name", .str "sku"), ("type", .str "string")],
       .obj [("name", .str "cost_price"), ("type", .str "number")]])])]

theorem C5_schema_create_witness :
    (exOk (validate_fields_config (JValue.obj [("fields", JValue.arr
        [.obj [("name", .str "sku"), ("type", .str "string")],
         .obj [("name", .str "cost_price"), ("type", .str "number")]])]) ) = true ∧
      ∀ sch ∈ stActive.schemas, sch.name ≠ pyStrip "products") ∧
    ∃ newSchema,
      schemaCreate stActive bodySchemaGood =
        (SchemaCreateResponse.created newSchema,
         { stActive with
             schemas := stActive.schemas ++ [newSchema]
             nextSchemaId := stActive.nextSchemaId + 1 }) ∧
      newSchema.fields_config = JValue.obj [("fields", JValue.arr
        [.obj [("name", .str "sku"), ("type", .str "string")],
         .obj [("name", .str "cost_price"), ("type", .str "number")]])] ∧
      newSchema.name = pyStrip "products" := by
  have hpre : (exOk (validate_fields_config (JValue.obj [("fields", JValue.arr
      [.obj [("name", .str "sku"), ("type", .str "string")],
       .obj [("name", .str "cost_price"), ("type", .str "number")]])]) ) = true ∧
      ∀ sch ∈ stActive.schemas, sch.name ≠ pyStrip "products") := by
    refine ⟨rfl, ?_⟩
    intro sch hsch
    simp only [stActive, List.mem_singleton] at hsch
    subst hsch
    decide
  exact ⟨hpre,
    (C5_schema_create stActive bodySchemaGood "products" _ "Product catalogue" true
      rfl (by decide) (by decide) rfl rfl rfl).1 hpre⟩

/-! C8 — shape of the canonical records produced by `to_table_data`. -/

def JValue.isFloat : JValue → Bool
  | .float _ => true
  | _ => false

/-- Tests that a value is an object all of whose values are scalars — a
"mapping of primitives". -/
def JValue.valuesPrimitive : JValue → Bool
  | .obj fs => fs.all (fun kv => kv.2.isPrimitive)
  | _ => false

theorem user_salary_field (u : User) :
    u.to_table_data.get? "salary" =
      some (match u.salary with
            | some q => if q = 0 then JValue.null else JValue.float q
            | none => JValue.null) := rfl

theorem user_department_field (u : User) :
    u.to_table_data.get? "department" =
      some (.str (get_display User.DEPARTMENT_CHOICES u.department)) := rfl

theorem user_position_field (u : User) :
    u.to_table_data.get? "position" =
      some (.str (get_display User.POSITION_CHOICES u.position)) := rfl

theorem prod_status_field (p : Product) :
    p.to_table_data.get? "status" =
      some (.str (get_display Product.STATUS_CHOICES p.status)) := rfl

theorem get_display_department {c l : String} (h : (c, l) ∈ User.DEPARTMENT_CHOICES) :
    get_display User.DEPARTMENT_CHOICES c = l ∧ l ≠ c := by
  simp only [User.DEPARTMENT_CHOICES, List.mem_cons, List.not_mem_nil, or_false,
    Prod.mk.injEq] at h
  rcases h with ⟨rfl, rfl⟩ | ⟨rfl, rfl⟩ | ⟨rfl, rfl⟩ | ⟨rfl, rfl⟩ | ⟨rfl, rfl⟩ | ⟨rfl, rfl⟩ <;>
    exact ⟨rfl, by decide⟩

theorem get_display_position {c l : String} (h : (c, l) ∈ User.POSITION_CHOICES) :
    get_display User.POSITION_CHOICES c = l ∧ l ≠ c := by
  simp only [User.POSITION_CHOICES, List.mem_cons, List.not_mem_nil, or_false,
    Prod.mk.injEq] at h
  rcases h with h | h | h | h | h | h | h <;>
    · obtain ⟨rfl, rfl⟩ := h
      exact ⟨rfl, by decide⟩

theorem get_display_status {c l : String} (h : (c, l) ∈ Product.STATUS_CHOICES) :
    get_display Product.STATUS_CHOICES c = l ∧ l ≠ c := by
  simp only [Product.STATUS_CHOICES, List.mem_cons, List.not_mem_nil, or_false,
    Prod.mk.injEq] at h
  rcases h with ⟨rfl, rfl⟩ | ⟨rfl, rfl⟩ | ⟨rfl, rfl⟩ | ⟨rfl, rfl⟩ <;> exact ⟨rfl, by decide⟩

/-- A user whose salary is the Decimal 0.00 — a numeric monetary value. -/
def userZeroSalary : User :=
  { id := 7
    username := "intern"
    email := "intern@corp.example"
    first_name := "Иван"
    last_name := "Петров"
    department := "IT"
    position := "JUNIOR_DEV"
    salary := some 0
    hire_date := ⟨2024, 1, 15⟩
    is_active := true }

/-- C8 counterexample: `userZeroSalary.salary` is the numeric monetary value
0, yet `to_table_data` emits `None` for the "salary" key — not a
floating-point number — because the source guards the conversion with `if
self.salary`, which is falsy for a zero Decimal. -/
theorem C8_counterexample :
    userZeroSalary.salary = some (0 : ℚ) ∧
    userZeroSalary.to_table_data.get? "salary" = some JValue.null ∧
    (userZeroSalary.to_table_data.get? "salary").map JValue.isFloat = some false :=
  ⟨rfl, rfl, rfl⟩

/-- C8 (amended): for every user with recognised department/position codes and
every product with a recognised status code, `to_table_data` yields a mapping
of primitive values with the declared field names; the monetary fields
cost_price, selling_price and current_price are always floating-point, while
salary is floating-point exactly for a present non-zero value and None when
the salary is null OR ZERO; date fields carry the `isoformat` ISO-8601
string; and the choice fields carry the human-readable display label, which
differs from the internal code. -/
theorem C8_canonical_record_shape (u : User) (p : Product) (dl pl sl : String)
    (hd : (u.department, dl) ∈ User.DEPARTMENT_CHOICES)
    (hp : (u.position, pl) ∈ User.POSITION_CHOICES)
    (hs : (p.status, sl) ∈ Product.STATUS_CHOICES) :
    u.to_table_data.keys = ["id", "full_name", "username", "email", "department",
      "position", "salary", "hire_date", "is_active"] ∧
    p.to_table_data.keys = ["id", "name", "sku", "barcode", "category", "supplier",
      "cost_price", "selling_price", "current_price", "profit_margin", "stock_quantity",
      "stock_status", "min_stock_level", "weight", "dimensions", "status",
      "is_featured", "created_at"] ∧
    p.to_table_data.get? "cost_price" = some (.float p.cost_price) ∧
    p.to_table_data.get? "selling_price" = some (.float p.selling_price) ∧
    p.to_table_data.get? "current_price" = some (.float p.current_price) ∧
    u.to_table_data.get? "hire_date" = some (.str u.hire_date.isoformat) ∧
    p.to_table_data.get? "created_at" = some (.str p.created_at.isoformat) ∧
    u.to_table_data.get? "department" = some (.str dl) ∧
    u.to_table_data.get? "position" = some (.str pl) ∧
    p.to_table_data.get? "status" = some (.str sl) ∧
    dl ≠ u.department ∧ pl ≠ u.position ∧ sl ≠ p.status ∧
    (∀ q : ℚ, u.salary = some q → q ≠ 0 →
      u.to_table_data.get? "salary" = some (.float q)) ∧
    ((u.salary = none ∨ u.salary = some 0) →
      u.to_table_data.get? "salary" = some JValue.null) ∧
    u.to_table_data.valuesPrimitive = true ∧
    p.to_table_data.valuesPrimitive = true := by
  obtain ⟨hd1, hd2⟩ := get_display_department hd
  obtain ⟨hp1, hp2⟩ := get_display_position hp
  obtain ⟨hs1, hs2⟩ := get_display_status hs
  refine ⟨rfl, rfl, rfl, rfl, rfl, rfl, rfl, ?_, ?_, ?_, hd2, hp2, hs2, ?_, ?_, ?_, ?_⟩
  · rw [user_department_field, hd1]
  · rw [user_position_field, hp1]
  · rw [prod_status_field, hs1]
  · intro q hq hqn
    rw [user_salary_field, hq]
    simp [hqn]
  · intro hq
    rcases hq with hq | hq <;> rw [user_salary_field, hq]
    rfl
  · have hsal : (match u.salary with
        | some q => if q = 0 then JValue.null else JValue.float q
        | none => JValue.null).isPrimitive = true := by
      split
      · split <;> rfl
      · rfl
    simp only [JValue.valuesPrimitive, User.to_table_data, List.all_cons, List.all_nil,
      Bool.and_eq_true, and_true]
    exact ⟨rfl, rfl, rfl, rfl, rfl, rfl, hsal, rfl, rfl⟩
  · have hw : (match p.weight with
        | some q => if q = 0 then JValue.null else JValue.float q
        | none => JValue.null).isPrimitive = true := by
      split
      · split <;> rfl
      · rfl
    have hpm : ((pyRound2 p.profit_margin).toJValue).isPrimitive = true := by
      cases p.profit_margin <;> rfl
    simp only [JValue.valuesPrimitive, Product.to_table_data, List.all_cons, List.all_nil,
      Bool.and_eq_true, and_true]
    exact ⟨rfl, rfl, rfl, rfl, rfl, rfl, rfl, rfl, rfl, hpm, rfl, rfl, rfl, hw, rfl,
      rfl, rfl, rfl⟩

def userSyncWit : User :=
  { id := 3
    username := "mgr"
    email := "mgr@corp.example"
    first_name := "Анна"
    last_name := "Сидорова"
    department := "IT"
    position := "MANAGER"
    salary := some 5
    hire_date := ⟨2023, 11, 2⟩
    is_active := true }

def prodWit : Product :=
  { id := 9
    name := "Widget"
    sku := "W-1"
    barcode := none
    description := ""
    category := .mk "Root" none
    supplier := none
    cost_price := 10
    selling_price := 20
    discount_price := none
    stock_quantity := 4
    min_stock_level := 1
    weight := none
    dimensions := ""
    status := "ACTIVE"
    is_featured := false
    created_at := ⟨⟨2024, 2, 1⟩, 12, 0, 0, 0⟩ }

theorem C8_canonical_record_shape_witness :
    userSyncWit.to_table_data.get? "department" = some (JValue.str "IT отдел") ∧
    userSyncWit.to_table_data.get? "salary" = some (JValue.float 5) ∧
    prodWit.to_table_data.get? "cost_price" = some (JValue.float 10) := by
  have h := C8_canonical_record_shape userSyncWit prodWit "IT отдел" "Менеджер" "Активен"
    (by decide) (by decide) (by decide)
  refine ⟨h.2.2.2.2.2.2.2.1, ?_, h.2.2.1⟩
  exact h.2.2.2.2.2.2.2.2.2.2.2.2.2.1 5 rfl (by norm_num)

/-! C9 — classification of sync-push outcomes. -/

/-- C9 counterexample: for the single-entity push, a connection failure is NOT
classified Unavailable — `sync_single` surfaces it as the same generic 502
error as a remote rejection, indistinguishable from it and without the
status or detail of the remote, whereas the bulk endpoint classifies the same network
outcome as 503 Unavailable. -/
theorem C9_counterexample :
    sync_single userSyncWit (.exn "timed out") =
      SyncSingleResponse.errMsg "Ошибка синхронизации" ∧
    sync_single userSyncWit (.resp 400 "Bad Request") =
      SyncSingleResponse.errMsg "Ошибка синхронизации" ∧
    (sync_single userSyncWit (.exn "timed out")).status = 502 ∧
    (sync_to_core [userSyncWit] 1 none (.exn "timed out")).status = 503 :=
  ⟨rfl, rfl, rfl, rfl⟩

/-- C9 (amended): the BULK sync push classifies outcomes as the claim states —
Success (200 with the count) exactly when the remote answers 201, any other
remote status is a 502 Rejected response carrying the remote status and
body, and a connection failure/timeout is a 503 Unavailable response — and
sync never raises into the caller (it is a total function into classified
responses).  The SINGLE-entity push reduces the outcome to a boolean that is
true exactly on 201; its endpoint surfaces every failure, including
connection failures, as one generic 502 error, so an Unavailable outcome is
not distinguished from a rejection there. -/
theorem C9_sync_classification (allUsers : List User) (sid : Nat)
    (uids : Option (List Nat)) (s : Nat) (txt m : String) (u : User)
    (hne : ¬ (selectSyncUsers allUsers uids).isEmpty = true) :
    ((sync_to_core allUsers sid uids (.resp s txt)).status = 200 ↔ s = 201) ∧
    (s = 201 →
      sync_to_core allUsers sid uids (.resp s txt) =
        SyncCoreResponse.synced
          ("Синхронизировано " ++ toString (selectSyncUsers allUsers uids).length ++
            " пользователей")
          (selectSyncUsers allUsers uids).length sid) ∧
    (s ≠ 201 →
      sync_to_core allUsers sid uids (.resp s txt) =
        SyncCoreResponse.coreError ("Ошибка Core Service: " ++ toString s) txt) ∧
    sync_to_core allUsers sid uids (.exn m) =
      SyncCoreResponse.coreUnavailable ("Не удалось подключиться к Core Service: " ++ m) ∧
    (sync_to_core allUsers sid uids (.exn m)).status = 503 ∧
    (u.sync_to_core_service (.resp s txt) = true ↔ s = 201) ∧
    u.sync_to_core_service (.exn m) = false ∧
    ((sync_single u (.resp s txt)).status = 502 ↔ s ≠ 201) ∧
    (sync_single u (.exn m)).status = 502 := by
  have hbool : ∀ t, User.sync_to_core_service u (HttpOutcome.resp s t) = (s == 201) := by
    intro t
    rfl
  refine ⟨?_, ?_, ?_, ?_, ?_, ?_, rfl, ?_, rfl⟩
  · unfold sync_to_core
    rw [if_neg hne]
    by_cases h : s = 201
    · subst h
      simp [SyncCoreResponse.status]
    · have : (s == 201) = false := by simp [h]
      simp [this, h, SyncCoreResponse.status]
  · intro h
    subst h
    unfold sync_to_core
    rw [if_neg hne]
    simp [selectSyncUsers]
  · intro h
    have : (s == 201) = false := by simp [h]
    unfold sync_to_core
    rw [if_neg hne]
    simp [this]
  · unfold sync_to_core
    rw [if_neg hne]
  · unfold sync_to_core
    rw [if_neg hne]
    rfl
  · rw [hbool]
    simp
  · unfold sync_single
    rw [hbool]
    by_cases h : s = 201
    · subst h
      simp [SyncSingleResponse.status]
    · have : (s == 201) = false := by simp [h]
      simp [this, h, SyncSingleResponse.status]

theorem C9_sync_classification_witness :
    ((sync_to_core [userSyncWit] 1 none (.resp 500 "boom")).status = 200 ↔ (500 : Nat) = 201) ∧
    ((500 : Nat) = 201 →
      sync_to_core [userSyncWit] 1 none (.resp 500 "boom") =
        SyncCoreResponse.synced
          ("Синхронизировано " ++ toString (selectSyncUsers [userSyncWit] none).length ++
            " пользователей")
          (selectSyncUsers [userSyncWit] none).length 1) ∧
    ((500 : Nat) ≠ 201 →
      sync_to_core [userSyncWit] 1 none (.resp 500 "boom") =
        SyncCoreResponse.coreError ("Ошибка Core Service: " ++ toString (500 : Nat)) "boom") ∧
    sync_to_core [userSyncWit] 1 none (.exn "refused") =
      SyncCoreResponse.coreUnavailable ("Не удалось подключиться к Core Service: " ++ "refused") ∧
    (sync_to_core [userSyncWit] 1 none (.exn "refused")).status = 503 ∧
    (userSyncWit.sync_to_core_service (.resp 500 "boom") = true ↔ (500 : Nat) = 201) ∧
    userSyncWit.sync_to_core_service (.exn "refused") = false ∧
    ((sync_single userSyncWit (.resp 500 "boom")).status = 502 ↔ (500 : Nat) ≠ 201) ∧
    (sync_single userSyncWit (.exn "refused")).status = 502 :=
  C9_sync_classification [userSyncWit] 1 none 500 "boom" "refused" userSyncWit (by decide)

end ERP
